import Mathlib

/-!
Verification of the `TicketService` purchase processor
(`src/pairtest/TicketService.js`): a shallow embedding of its data model and
operations, followed by theorems settling the specified properties.

Ticket categories are carried as strings, as in the source, where any string
may be presented to the price table and unknown strings fail the lookup.
Promise-based control flow is embedded as an explicit outcome (synchronous
throw, rejected promise, or resolution) paired with the trace of collaborator
invocations; the collaborators themselves are parameters supplying their
success-or-failure result, mirroring the stubs used by the repository's tests.
-/

/-- A ticket-type request: a category string plus a number of tickets,
mirroring the `TicketTypeRequest` objects consumed by `TicketService`
(`getTicketType()` and `noOfTickets`). -/
structure TicketTypeRequest where
  ticketType : String
  noOfTickets : Nat
deriving DecidableEq, Repr

/-- The `TicketType` value class: a category name with its price. -/
structure TicketType where
  type : String
  price : Nat
deriving DecidableEq, Repr

/-- The `ticketTypes` object literal: property access on
`{'ADULT': …, 'CHILD': …, 'INFANT': …}` yields the entry or `undefined`. -/
def ticketTypes (t : String) : Option TicketType :=
  if t = "ADULT" then some ⟨"ADULT", 20⟩
  else if t = "CHILD" then some ⟨"CHILD", 10⟩
  else if t = "INFANT" then some ⟨"INFANT", 0⟩
  else none

/-- The `maxTicketsLimit` class property. -/
def maxTicketsLimit : Nat := 20

/-- `calculateTotalTickets`: `reduce((acc, r) => acc + r.noOfTickets, 0)`. -/
def calculateTotalTickets (reqs : List TicketTypeRequest) : Nat :=
  reqs.foldl (fun acc r => acc + r.noOfTickets) 0

/-- `getTicketPrice`: table lookup, throwing
`InvalidPurchaseException("Invalid ticket type: " + t)` on a miss. -/
def getTicketPrice (t : String) : Except String Nat :=
  match ticketTypes t with
  | none => .error ("Invalid ticket type: " ++ t)
  | some obj => .ok obj.price

/-- `calculateTotalPrice`: a left reduce accumulating
`noOfTickets * getTicketPrice(type)`; a throw from the price lookup aborts
the reduce, which the `Except` monad models. The `accountId` parameter is
received, as in the source, and never read. -/
def calculateTotalPrice (accountId : String) (reqs : List TicketTypeRequest) :
    Except String Nat :=
  reqs.foldlM (fun acc r => do
    let price ← getTicketPrice r.ticketType
    pure (acc + r.noOfTickets * price)) 0

/-- `validatePurchase`: the three checks in source order. Note the first
check compares `ticketTypeRequests.length` (the number of request entries)
against `maxTicketsLimit`, not the computed `totalTickets`. -/
def validatePurchase (reqs : List TicketTypeRequest) : Except String Unit :=
  if reqs.length > maxTicketsLimit then
    .error ("Maximum of " ++ toString maxTicketsLimit ++
      " tickets can be purchased at a time")
  else if calculateTotalTickets reqs = 0 then
    .error "No tickets selected"
  else
    let adultTickets := reqs.find? (fun r => r.ticketType == "ADULT")
    let hasChildOrInfantWithoutAdult := reqs.any (fun r =>
      (r.ticketType == "CHILD" || r.ticketType == "INFANT") &&
        decide (r.noOfTickets > 0) && adultTickets.isNone)
    if hasChildOrInfantWithoutAdult then
      .error
        "Child and Infant tickets cannot be purchased without purchasing an Adult ticket"
    else
      .ok ()

/-- The seat total computed inside `reserveSeats`: ADULT and CHILD entries
contribute their count, every other category contributes zero. -/
def seatsToReserve (reqs : List TicketTypeRequest) : Nat :=
  reqs.foldl (fun acc r =>
    acc + (if r.ticketType == "ADULT" || r.ticketType == "CHILD"
           then r.noOfTickets else 0)) 0

/-- An invocation of one of the two collaborators, recorded with its
arguments. -/
inductive Event where
  | pay (accountId : String) (amount : Nat)
  | reserveSeats (seatCount : Nat)
deriving DecidableEq, Repr

/-- Which JavaScript error class carries a failure: plain `Error` or
`InvalidPurchaseException`. -/
inductive ErrorKind where
  | genericError
  | invalidPurchaseException
deriving DecidableEq, Repr

/-- How a `purchase` call ends for the caller: a synchronous throw before any
promise exists, a rejected promise, or successful resolution. -/
inductive Outcome where
  | syncThrow (kind : ErrorKind) (msg : String)
  | rejected (kind : ErrorKind) (msg : String)
  | resolved
deriving DecidableEq, Repr

/-- `purchase`: validate (throws synchronously as plain `Error`), compute the
total price (`getTicketPrice` throws `InvalidPurchaseException`
synchronously), then `pay(...).then(() => reserveSeats(...)).catch(e =>
throw InvalidPurchaseException(e.message))`. The collaborator results are
parameters; the returned trace lists the collaborator calls made. -/
def purchase (accountId : String) (reqs : List TicketTypeRequest)
    (payResult reserveResult : Except String Unit) :
    Outcome × List Event :=
  match validatePurchase reqs with
  | .error m => (.syncThrow .genericError m, [])
  | .ok _ =>
    match calculateTotalPrice accountId reqs with
    | .error m => (.syncThrow .invalidPurchaseException m, [])
    | .ok totalPrice =>
      match payResult with
      | .error m =>
          (.rejected .invalidPurchaseException m, [.pay accountId totalPrice])
      | .ok _ =>
        match reserveResult with
        | .error m =>
            (.rejected .invalidPurchaseException m,
             [.pay accountId totalPrice, .reserveSeats (seatsToReserve reqs)])
        | .ok _ =>
            (.resolved,
             [.pay accountId totalPrice, .reserveSeats (seatsToReserve reqs)])

/-- Spec-side price of a category: the table entry's price, zero off-table
(only used under the hypothesis that every category is in the table). -/
def tablePrice (t : String) : Nat :=
  match ticketTypes t with
  | some obj => obj.price
  | none => 0

/-- Decidable form of "every request's category is in the price table". -/
def allInTable (reqs : List TicketTypeRequest) : Bool :=
  reqs.all (fun r => (ticketTypes r.ticketType).isSome)

/-- The adult-accompaniment condition computed by `validatePurchase`
(`hasChildOrInfantWithoutAdult`), in propositional form: some CHILD or
INFANT entry has a positive count, and no entry at all has category ADULT. -/
theorem any_childInfantWithoutAdult_iff (reqs : List TicketTypeRequest) :
    (reqs.any (fun r =>
      (r.ticketType == "CHILD" || r.ticketType == "INFANT") &&
        decide (r.noOfTickets > 0) &&
        (reqs.find? (fun r => r.ticketType == "ADULT")).isNone) = true) ↔
    ((∃ r ∈ reqs, (r.ticketType = "CHILD" ∨ r.ticketType = "INFANT") ∧
        0 < r.noOfTickets) ∧
      ¬ ∃ r ∈ reqs, r.ticketType = "ADULT") := by
  rcases hfind : reqs.find? (fun r => r.ticketType == "ADULT") with _ | a
  · have hno : ∀ r ∈ reqs, ¬ r.ticketType = "ADULT" := by
      intro r hr h
      have := List.find?_eq_none.mp hfind r hr
      simp [h] at this
    simp only [hfind, Option.isNone_none, Bool.and_true, List.any_eq_true]
    constructor
    · rintro ⟨r, hr, hpr⟩
      have hp : (r.ticketType = "CHILD" ∨ r.ticketType = "INFANT") ∧
          0 < r.noOfTickets := by simpa using hpr
      exact ⟨⟨r, hr, hp⟩, fun ⟨s, hs, hsty⟩ => hno s hs hsty⟩
    · rintro ⟨⟨r, hr, h⟩, _⟩
      exact ⟨r, hr, by simpa using h⟩
  · have hmem := List.mem_of_find?_eq_some hfind
    have hty : a.ticketType = "ADULT" := by
      have := List.find?_some hfind
      simpa using this
    simp only [hfind, Option.isNone_some, Bool.and_false, List.any_eq_true]
    constructor
    · rintro ⟨r, _, hpr⟩
      simp at hpr
    · rintro ⟨_, hnone⟩
      exact absurd ⟨a, hmem, hty⟩ hnone

/-- Message of the first check, as the source builds it. -/
theorem maxTickets_message :
    ("Maximum of " ++ toString maxTicketsLimit ++
      " tickets can be purchased at a time") =
    "Maximum of 20 tickets can be purchased at a time" := rfl

/-- First check fires: more than `maxTicketsLimit` request entries. -/
theorem validatePurchase_of_length_gt
    (reqs : List TicketTypeRequest) (h : reqs.length > maxTicketsLimit) :
    validatePurchase reqs =
      .error "Maximum of 20 tickets can be purchased at a time" := by
  simp only [validatePurchase, if_pos h, maxTickets_message]

/-- Second check fires: length within limit, zero total tickets. -/
theorem validatePurchase_of_total_zero
    (reqs : List TicketTypeRequest) (h1 : ¬ reqs.length > maxTicketsLimit)
    (h2 : calculateTotalTickets reqs = 0) :
    validatePurchase reqs = .error "No tickets selected" := by
  simp only [validatePurchase, if_neg h1, if_pos h2]

/-- Third check fires: first two pass, child/infant present with no adult. -/
theorem validatePurchase_of_childInfant
    (reqs : List TicketTypeRequest) (h1 : ¬ reqs.length > maxTicketsLimit)
    (h2 : ¬ calculateTotalTickets reqs = 0)
    (h3 : (∃ r ∈ reqs, (r.ticketType = "CHILD" ∨ r.ticketType = "INFANT") ∧
        0 < r.noOfTickets) ∧ ¬ ∃ r ∈ reqs, r.ticketType = "ADULT") :
    validatePurchase reqs =
      .error
        "Child and Infant tickets cannot be purchased without purchasing an Adult ticket" := by
  simp only [validatePurchase, if_neg h1, if_neg h2]
  rw [if_pos ((any_childInfantWithoutAdult_iff reqs).mpr h3)]

/-- All checks pass. -/
theorem validatePurchase_of_valid
    (reqs : List TicketTypeRequest) (h1 : ¬ reqs.length > maxTicketsLimit)
    (h2 : ¬ calculateTotalTickets reqs = 0)
    (h3 : ¬ ((∃ r ∈ reqs, (r.ticketType = "CHILD" ∨ r.ticketType = "INFANT") ∧
        0 < r.noOfTickets) ∧ ¬ ∃ r ∈ reqs, r.ticketType = "ADULT")) :
    validatePurchase reqs = .ok () := by
  simp only [validatePurchase, if_neg h1, if_neg h2]
  rw [if_neg (fun hb => h3 ((any_childInfantWithoutAdult_iff reqs).mp hb))]

/-- Claim C1: the claim says any request list whose total ticket count
exceeds 20 is rejected with the max-tickets message regardless of how the
tickets are distributed across entries. The code instead compares the number
of request ENTRIES against the limit: a single entry requesting 25 tickets
has total 25 > 20, yet `validatePurchase` accepts it — contradicting the
code's own comment and error message, which speak of tickets. -/
theorem c1_overlimit_total_accepted :
    calculateTotalTickets [⟨"ADULT", 25⟩] = 25 ∧
    validatePurchase [⟨"ADULT", 25⟩] = .ok () := ⟨rfl, rfl⟩

/-- Claim C2: the claim says the count-limit rule (total ticket count over
20) is checked first, so when it and a later rule are both violated the
max-tickets error is the one reported. At `[{CHILD, 25}]` the total, 25,
exceeds the limit and the adult-accompaniment rule is also violated, so
the claim requires the max-tickets error; the code's first check compares
the entry count (1) to the limit, passes, and reports the adult-required
error instead — the same slip as C1, observable here as the wrong error
message rather than as acceptance. -/
theorem c2_first_failing_rule_misreported :
    maxTicketsLimit < calculateTotalTickets [⟨"CHILD", 25⟩] ∧
    validatePurchase [⟨"CHILD", 25⟩] =
      .error
        "Child and Infant tickets cannot be purchased without purchasing an Adult ticket" ∧
    validatePurchase [⟨"CHILD", 25⟩] ≠
      .error "Maximum of 20 tickets can be purchased at a time" :=
  ⟨by decide, rfl, by
    intro h
    injection h with h'
    exact absurd h' (by decide)⟩

/-- Claim C3: when the count-limit check passes and the total ticket count
is zero (the empty list in particular), `validatePurchase` fails with the
no-tickets-selected message; `calculateTotalTickets` of the empty list is 0
and of counts 2, 3, 1 is 6. -/
theorem c3_no_tickets_selected (reqs : List TicketTypeRequest)
    (h1 : ¬ reqs.length > maxTicketsLimit)
    (h2 : calculateTotalTickets reqs = 0) :
    validatePurchase reqs = .error "No tickets selected" ∧
    calculateTotalTickets ([] : List TicketTypeRequest) = 0 ∧
    ∀ t1 t2 t3 : String,
      calculateTotalTickets [⟨t1, 2⟩, ⟨t2, 3⟩, ⟨t3, 1⟩] = 6 :=
  ⟨validatePurchase_of_total_zero reqs h1 h2, rfl, fun _ _ _ => rfl⟩

/-- Claim C3 at the empty list: both hypotheses hold and validation fails
with the no-tickets-selected message. -/
theorem c3_no_tickets_selected_witness :
    ¬ ([] : List TicketTypeRequest).length > maxTicketsLimit ∧
    calculateTotalTickets ([] : List TicketTypeRequest) = 0 ∧
    validatePurchase ([] : List TicketTypeRequest) =
      .error "No tickets selected" :=
  ⟨by decide, rfl, (c3_no_tickets_selected [] (by decide) rfl).1⟩

/-- Claim C4: once the count-limit and emptiness checks pass,
`validatePurchase` fails with the adult-required message exactly when some
CHILD or INFANT entry has positive count and no entry has category ADULT;
with an ADULT entry present it succeeds. -/
theorem c4_adult_accompaniment (reqs : List TicketTypeRequest)
    (h1 : ¬ reqs.length > maxTicketsLimit)
    (h2 : calculateTotalTickets reqs ≠ 0) :
    (validatePurchase reqs =
        .error
          "Child and Infant tickets cannot be purchased without purchasing an Adult ticket"
      ↔ ((∃ r ∈ reqs, (r.ticketType = "CHILD" ∨ r.ticketType = "INFANT") ∧
            0 < r.noOfTickets) ∧ ¬ ∃ r ∈ reqs, r.ticketType = "ADULT")) ∧
    ((∃ r ∈ reqs, r.ticketType = "ADULT") → validatePurchase reqs = .ok ()) := by
  constructor
  · constructor
    · intro hv
      by_contra h3
      rw [validatePurchase_of_valid reqs h1 h2 h3] at hv
      simp at hv
    · intro h3
      exact validatePurchase_of_childInfant reqs h1 h2 h3
  · intro hadult
    apply validatePurchase_of_valid reqs h1 h2
    rintro ⟨_, hnone⟩
    exact hnone hadult

/-- Claim C4 at a single-ADULT list: the hypotheses hold and validation
succeeds because an ADULT entry is present. -/
theorem c4_adult_accompaniment_witness :
    ¬ ([⟨"ADULT", 1⟩] : List TicketTypeRequest).length > maxTicketsLimit ∧
    calculateTotalTickets [⟨"ADULT", 1⟩] ≠ 0 ∧
    validatePurchase [⟨"ADULT", 1⟩] = .ok () :=
  ⟨by decide, by decide,
    (c4_adult_accompaniment [⟨"ADULT", 1⟩] (by decide) (by decide)).2
      ⟨⟨"ADULT", 1⟩, by simp, rfl⟩⟩

/-- The price reduce, run from any accumulator over a list whose categories
are all in the table, returns the accumulator plus the sum of
count × table price. -/
theorem calculateTotalPrice_go (reqs : List TicketTypeRequest) (acc : Nat)
    (hall : allInTable reqs = true) :
    reqs.foldlM (fun acc r => do
      let price ← getTicketPrice r.ticketType
      pure (acc + r.noOfTickets * price)) acc =
      (.ok (acc +
        (reqs.map (fun r => r.noOfTickets * tablePrice r.ticketType)).sum) :
        Except String Nat) := by
  induction reqs generalizing acc with
  | nil => rfl
  | cons r rs ih =>
    simp only [allInTable, List.all_cons, Bool.and_eq_true] at hall
    obtain ⟨hr, hrs⟩ := hall
    rcases hsome : ticketTypes r.ticketType with _ | obj
    · rw [hsome] at hr
      simp at hr
    · have hp : getTicketPrice r.ticketType = .ok obj.price := by
        simp [getTicketPrice, hsome]
      have ht : tablePrice r.ticketType = obj.price := by
        simp [tablePrice, hsome]
    -- peel one step of the reduce, then use the inductive hypothesis
      rw [List.foldlM_cons, hp]
      show List.foldlM _ (acc + r.noOfTickets * obj.price) rs = _
      rw [ih (acc + r.noOfTickets * obj.price) hrs]
      simp [ht, Nat.add_assoc]

/-- Claim C5: with every category in the fixed table, `calculateTotalPrice`
is the sum over requests of count × price-for-category (0 on the empty list,
70 on ADULT×2 + CHILD×3); for any category outside the table the price
lookup fails with the invalid-ticket-type message, and the ADULT price is
20. -/
theorem c5_total_price (a : String) (reqs : List TicketTypeRequest)
    (hall : allInTable reqs = true) :
    calculateTotalPrice a reqs =
      .ok ((reqs.map (fun r => r.noOfTickets * tablePrice r.ticketType)).sum) ∧
    (∀ t, ticketTypes t = none →
      getTicketPrice t = .error ("Invalid ticket type: " ++ t)) ∧
    getTicketPrice "INVALID_TYPE" = .error "Invalid ticket type: INVALID_TYPE" ∧
    getTicketPrice "ADULT" = .ok 20 ∧
    calculateTotalPrice a [] = .ok 0 ∧
    ∀ b, calculateTotalPrice b [⟨"ADULT", 2⟩, ⟨"CHILD", 3⟩] = .ok 70 := by
  refine ⟨?_, ?_, rfl, rfl, rfl, fun _ => rfl⟩
  · have := calculateTotalPrice_go reqs 0 hall
    simpa [calculateTotalPrice] using this
  · intro t ht
    simp [getTicketPrice, ht]

/-- Claim C5 on ADULT×2 + CHILD×3: the all-in-table hypothesis holds and
the total price is 70. -/
theorem c5_total_price_witness :
    allInTable [⟨"ADULT", 2⟩, ⟨"CHILD", 3⟩] = true ∧
    calculateTotalPrice "112233" [⟨"ADULT", 2⟩, ⟨"CHILD", 3⟩] = .ok 70 :=
  ⟨rfl,
    (c5_total_price "112233" [⟨"ADULT", 2⟩, ⟨"CHILD", 3⟩] rfl).2.2.2.2.2
      "112233"⟩

/-- `purchase` when validation throws: the throw propagates synchronously
as a plain `Error` and no collaborator is called. -/
theorem purchase_validate_error (a : String) (reqs : List TicketTypeRequest)
    (payR resR : Except String Unit) (m : String)
    (h : validatePurchase reqs = .error m) :
    purchase a reqs payR resR = (.syncThrow .genericError m, []) := by
  unfold purchase
  rw [h]

/-- `purchase` when validation passes but the price computation throws:
`InvalidPurchaseException` propagates synchronously, no collaborator
called. -/
theorem purchase_price_error (a : String) (reqs : List TicketTypeRequest)
    (payR resR : Except String Unit) (m : String)
    (h1 : validatePurchase reqs = .ok ())
    (h2 : calculateTotalPrice a reqs = .error m) :
    purchase a reqs payR resR =
      (.syncThrow .invalidPurchaseException m, []) := by
  unfold purchase
  rw [h1, h2]

/-- `purchase` when the payment collaborator rejects: the promise rejects
with `InvalidPurchaseException` and only the payment call happened. -/
theorem purchase_pay_error (a : String) (reqs : List TicketTypeRequest)
    (resR : Except String Unit) (p : Nat) (m : String)
    (h1 : validatePurchase reqs = .ok ())
    (h2 : calculateTotalPrice a reqs = .ok p) :
    purchase a reqs (.error m) resR =
      (.rejected .invalidPurchaseException m, [.pay a p]) := by
  unfold purchase
  rw [h1, h2]

/-- `purchase` when payment succeeds and reservation rejects: both
collaborators were called, and the promise rejects wrapped. -/
theorem purchase_reserve_error (a : String) (reqs : List TicketTypeRequest)
    (p : Nat) (m : String)
    (h1 : validatePurchase reqs = .ok ())
    (h2 : calculateTotalPrice a reqs = .ok p) :
    purchase a reqs (.ok ()) (.error m) =
      (.rejected .invalidPurchaseException m,
       [.pay a p, .reserveSeats (seatsToReserve reqs)]) := by
  unfold purchase
  rw [h1, h2]

/-- `purchase` when both collaborators succeed: payment then reservation,
and the promise resolves. -/
theorem purchase_resolved (a : String) (reqs : List TicketTypeRequest)
    (p : Nat)
    (h1 : validatePurchase reqs = .ok ())
    (h2 : calculateTotalPrice a reqs = .ok p) :
    purchase a reqs (.ok ()) (.ok ()) =
      (.resolved, [.pay a p, .reserveSeats (seatsToReserve reqs)]) := by
  unfold purchase
  rw [h1, h2]

/-- The seat reduce, from any accumulator: accumulator plus the sum of the
ADULT and CHILD counts. -/
theorem seatsToReserve_go (reqs : List TicketTypeRequest) (acc : Nat) :
    reqs.foldl (fun acc r =>
        acc + (if r.ticketType == "ADULT" || r.ticketType == "CHILD"
               then r.noOfTickets else 0)) acc =
      acc + ((reqs.filter (fun r =>
          r.ticketType == "ADULT" || r.ticketType == "CHILD")).map
        TicketTypeRequest.noOfTickets).sum := by
  induction reqs generalizing acc with
  | nil => simp
  | cons r rs ih =>
    rw [List.foldl_cons, ih]
    rcases hb : (r.ticketType == "ADULT" || r.ticketType == "CHILD") with _ | _
    · simp [List.filter_cons, hb]
    · simp [List.filter_cons, hb, Nat.add_assoc]

/-- Claim C6: the seat count handed to the reservation collaborator is
`seatsToReserve`, which is exactly the sum of the counts of the ADULT and
CHILD requests; an INFANT entry contributes nothing, and the two
spec examples evaluate to 5 and 2. -/
theorem c6_seats_required (a : String) (reqs : List TicketTypeRequest)
    (payR resR : Except String Unit) :
    (∀ n, Event.reserveSeats n ∈ (purchase a reqs payR resR).2 →
      n = seatsToReserve reqs) ∧
    seatsToReserve reqs =
      ((reqs.filter (fun r =>
          r.ticketType == "ADULT" || r.ticketType == "CHILD")).map
        TicketTypeRequest.noOfTickets).sum ∧
    (∀ r : TicketTypeRequest, r.ticketType = "INFANT" →
      ∀ rest, seatsToReserve (r :: rest) = seatsToReserve rest) ∧
    seatsToReserve [⟨"ADULT", 2⟩, ⟨"CHILD", 3⟩] = 5 ∧
    seatsToReserve [⟨"INFANT", 1⟩, ⟨"ADULT", 2⟩] = 2 := by
  refine ⟨?_, ?_, ?_, rfl, rfl⟩
  · intro n hn
    rcases hv : validatePurchase reqs with m | u
    · rw [purchase_validate_error a reqs payR resR m hv] at hn
      simp at hn
    · cases u
      rcases hp : calculateTotalPrice a reqs with m | p
      · rw [purchase_price_error a reqs payR resR m hv hp] at hn
        simp at hn
      · rcases payR with m | u'
        · rw [purchase_pay_error a reqs resR p m hv hp] at hn
          simp at hn
        · cases u'
          rcases resR with m | u''
          · rw [purchase_reserve_error a reqs p m hv hp] at hn
            simp at hn
            exact hn
          · cases u''
            rw [purchase_resolved a reqs p hv hp] at hn
            simp at hn
            exact hn
  · simpa [seatsToReserve] using seatsToReserve_go reqs 0
  · intro r hr rest
    simp [seatsToReserve, List.foldl_cons, hr]

/-- Claim C6 exercised end to end: on ADULT×2 + CHILD×3 a reservation event
appears in the trace and its seat count is `seatsToReserve` = 5. -/
theorem c6_seats_required_witness :
    Event.reserveSeats 5 ∈
      (purchase "112233" [⟨"ADULT", 2⟩, ⟨"CHILD", 3⟩] (.ok ()) (.ok ())).2 ∧
    (5 : Nat) = seatsToReserve [⟨"ADULT", 2⟩, ⟨"CHILD", 3⟩] :=
  ⟨by decide,
    (c6_seats_required "112233" [⟨"ADULT", 2⟩, ⟨"CHILD", 3⟩]
      (.ok ()) (.ok ())).1 5 (by decide)⟩

/-- Claim C7: collaborators are invoked in strict success-gated sequence —
a validation failure means neither collaborator is ever invoked (the trace
is empty), and a payment failure means the reservation collaborator is
never invoked and the purchase rejects with the wrapped message. -/
theorem c7_no_partial_side_effects (a : String)
    (reqs : List TicketTypeRequest) (payR resR : Except String Unit) :
    (∀ m, validatePurchase reqs = .error m →
      (purchase a reqs payR resR).2 = []) ∧
    (∀ m, payR = .error m →
      ∀ n, Event.reserveSeats n ∉ (purchase a reqs payR resR).2) ∧
    (∀ m p, payR = .error m → validatePurchase reqs = .ok () →
      calculateTotalPrice a reqs = .ok p →
      (purchase a reqs payR resR).1 = .rejected .invalidPurchaseException m) := by
  refine ⟨?_, ?_, ?_⟩
  · intro m h
    rw [purchase_validate_error a reqs payR resR m h]
  · intro m hm n
    subst hm
    rcases hv : validatePurchase reqs with m' | u
    · rw [purchase_validate_error a reqs (.error m) resR m' hv]
      simp
    · cases u
      rcases hp : calculateTotalPrice a reqs with m' | p
      · rw [purchase_price_error a reqs (.error m) resR m' hv hp]
        simp
      · rw [purchase_pay_error a reqs resR p m hv hp]
        simp
  · intro m p hm h1 h2
    subst hm
    rw [purchase_pay_error a reqs resR p m h1 h2]

/-- Claim C7 at ADULT×2 with a failing payment collaborator: the
reservation collaborator is never invoked and the purchase rejects with the
wrapped payment-failure message. -/
theorem c7_no_partial_side_effects_witness :
    Event.reserveSeats 2 ∉
      (purchase "112233" [⟨"ADULT", 2⟩] (.error "Payment failed")
        (.ok ())).2 ∧
    (purchase "112233" [⟨"ADULT", 2⟩] (.error "Payment failed")
        (.ok ())).1 = .rejected .invalidPurchaseException "Payment failed" :=
  ⟨(c7_no_partial_side_effects "112233" [⟨"ADULT", 2⟩]
      (.error "Payment failed") (.ok ())).2.1 "Payment failed" rfl 2,
   (c7_no_partial_side_effects "112233" [⟨"ADULT", 2⟩]
      (.error "Payment failed") (.ok ())).2.2 "Payment failed" 40 rfl rfl rfl⟩

/-- Claim C8, counterexample: a validation failure (empty request list) is
not delivered as a rejected promise carrying the purchase-exception type —
`purchase` throws synchronously with a plain `Error` before any promise
exists. -/
theorem c8_validation_failure_not_rejected_promise :
    (purchase "112233" [] (.ok ()) (.ok ())).1 =
      .syncThrow .genericError "No tickets selected" ∧
    (purchase "112233" [] (.ok ()) (.ok ())).1 ≠
      .rejected .invalidPurchaseException "No tickets selected" :=
  ⟨rfl, by decide⟩

/-- Claim C8 as amended: every failure carries the originating message, but
only collaborator failures surface as a rejected promise wrapped in the
purchase-exception; validation failures are thrown synchronously as plain
errors, and invalid-ticket-type lookup failures are thrown synchronously as
the purchase-exception. -/
theorem c8_uniform_failure_surface (a : String)
    (reqs : List TicketTypeRequest) (payR resR : Except String Unit) :
    (∀ m, validatePurchase reqs = .error m →
      (purchase a reqs payR resR).1 = .syncThrow .genericError m) ∧
    (∀ m, validatePurchase reqs = .ok () →
      calculateTotalPrice a reqs = .error m →
      (purchase a reqs payR resR).1 = .syncThrow .invalidPurchaseException m) ∧
    (∀ m p, validatePurchase reqs = .ok () →
      calculateTotalPrice a reqs = .ok p → payR = .error m →
      (purchase a reqs payR resR).1 = .rejected .invalidPurchaseException m) ∧
    (∀ m p, validatePurchase reqs = .ok () →
      calculateTotalPrice a reqs = .ok p → payR = .ok () → resR = .error m →
      (purchase a reqs payR resR).1 = .rejected .invalidPurchaseException m) := by
  refine ⟨?_, ?_, ?_, ?_⟩
  · intro m h
    rw [purchase_validate_error a reqs payR resR m h]
  · intro m h1 h2
    rw [purchase_price_error a reqs payR resR m h1 h2]
  · intro m p h1 h2 h3
    subst h3
    rw [purchase_pay_error a reqs resR p m h1 h2]
  · intro m p h1 h2 h3 h4
    subst h3
    subst h4
    rw [purchase_reserve_error a reqs p m h1 h2]

/-- Claim C8 (amended) at ADULT×2 with a failing payment collaborator: the
hypotheses hold and the rejection carries the purchase-exception with the
originating message. -/
theorem c8_uniform_failure_surface_witness :
    validatePurchase [⟨"ADULT", 2⟩] = .ok () ∧
    calculateTotalPrice "112233" [⟨"ADULT", 2⟩] = .ok 40 ∧
    (purchase "112233" [⟨"ADULT", 2⟩] (.error "Payment failed")
        (.ok ())).1 = .rejected .invalidPurchaseException "Payment failed" :=
  ⟨rfl, rfl,
    (c8_uniform_failure_surface "112233" [⟨"ADULT", 2⟩]
        (.error "Payment failed") (.ok ())).2.2.1
      "Payment failed" 40 rfl rfl rfl⟩

/-- Claim C9: for a purchase of a single ADULT×2 request with both
collaborators succeeding, the trace is exactly one payment call with amount
40 followed by one reservation call with seat count 2, and the call
resolves. -/
theorem c9_end_to_end_adult2 (a : String) :
    purchase a [⟨"ADULT", 2⟩] (.ok ()) (.ok ()) =
      (.resolved, [.pay a 40, .reserveSeats 2]) := rfl

/-- Claim C10: `calculateTotalPrice` never reads its `accountId` argument,
so the computed price is independent of the account identifier. -/
theorem c10_price_independent_of_account
    (a1 a2 : String) (reqs : List TicketTypeRequest) :
    calculateTotalPrice a1 reqs = calculateTotalPrice a2 reqs := rfl
